import Mathlib

/-
Shallow embedding of src/src/program/shader.rs (glium): shader creation
(build_shader) and deletion (Drop for Shader).

The GL driver and the surrounding context are modelled as an oracle record
(CommandContext): its capability fields (version, extensions, opengl_es) are
the fields the code reads, and its *_ret fields are the values the native
calls return.  The unit of work submitted to the context thread is embedded
as a pure function producing the ordered trace of native calls, lock events
and channel sends it performs, together with whether it finished normally or
panicked (assert!/unreachable!/unwrap failures).
-/

/-- Embeds struct GlVersion(u8, u8) from context.rs: a (major, minor) pair
whose derived PartialOrd is lexicographic. -/
structure GlVersion where
  major : Nat
  minor : Nat
deriving DecidableEq

/-- Lexicographic order on versions, as derived for the Rust tuple struct;
used for the comparisons `ctxt.version >= &GlVersion(2, 0)`. -/
def GlVersion.ge (a b : GlVersion) : Bool :=
  decide (b.major < a.major ∨ (a.major = b.major ∧ b.minor ≤ a.minor))

/-- Embeds the extension set read by shader.rs: only the
gl_arb_shader_objects flag is consulted. -/
structure ExtensionsList where
  gl_arb_shader_objects : Bool
deriving DecidableEq

/-- Embeds enum Handle: either a core GLuint id or a legacy GLhandleARB. -/
inductive Handle where
  | Id (id : Nat)
  | Handle (id : Nat)
deriving DecidableEq

/-- Embeds the two ProgramCreationError variants produced by shader.rs. -/
inductive ProgramCreationError where
  | CompilationError (msg : String)
  | ShaderTypeNotSupported
deriving DecidableEq

/-- Embeds Rust core::result::Result, as used for the channel payload. -/
inductive RustResult (T : Type) (E : Type) where
  | Ok (val : T)
  | Err (err : E)
deriving DecidableEq

/-- GL constant gl::GEOMETRY_SHADER. -/
def GEOMETRY_SHADER : Nat := 0x8DD9
/-- GL constant gl::COMPILE_STATUS. -/
def COMPILE_STATUS : Nat := 0x8B81
/-- GL constant gl::INFO_LOG_LENGTH. -/
def INFO_LOG_LENGTH : Nat := 0x8B84
/-- GL constant gl::OBJECT_COMPILE_STATUS_ARB (same value as COMPILE_STATUS). -/
def OBJECT_COMPILE_STATUS_ARB : Nat := 0x8B81
/-- GL constant gl::OBJECT_INFO_LOG_LENGTH_ARB (same value as INFO_LOG_LENGTH). -/
def OBJECT_INFO_LOG_LENGTH_ARB : Nat := 0x8B84

/-- One observable step of the unit of work: a native GL call, a
COMPILER_GLOBAL_LOCK acquire/release, or a send on the one-shot channel. -/
inductive Event where
  | CreateShader (ty : Nat)
  | CreateShaderObjectARB (ty : Nat)
  | ShaderSource (id : Nat)
  | ShaderSourceARB (id : Nat)
  | LockAcquire
  | CompileShader (id : Nat)
  | CompileShaderARB (id : Nat)
  | LockRelease
  | GetShaderiv (id : Nat) (pname : Nat)
  | GetObjectParameterivARB (id : Nat) (pname : Nat)
  | GetShaderInfoLog (id : Nat)
  | GetInfoLogARB (id : Nat)
  | Send (r : RustResult Handle ProgramCreationError)
  | DeleteShader (id : Nat)
  | DeleteObjectARB (id : Nat)
deriving DecidableEq

/-- Outcome of running a submitted unit of work: the ordered trace of events
it performed, and whether it returned normally or panicked
(assert!/unreachable!/unwrap failure). -/
inductive WorkResult where
  | finished (events : List Event)
  | panicked (events : List Event)
deriving DecidableEq

/-- Trace of a work outcome, whether it finished or panicked. -/
def WorkResult.events : WorkResult → List Event
  | .finished evs => evs
  | .panicked evs => evs

/-- Embeds the context/driver state visible to the unit of work.  The
capability fields are read by the code; the remaining fields are the oracle
for what the native calls return (identifier from CreateShader /
CreateShaderObjectARB, the COMPILE_STATUS value, and the log bytes written
by GetShaderInfoLog / GetInfoLogARB, whose written length is what the final
set_len uses). -/
structure CommandContext where
  version : GlVersion
  extensions : ExtensionsList
  opengl_es : Bool
  CreateShader_ret : Nat
  CreateShaderObjectARB_ret : Nat
  compile_status : Int
  info_log_bytes : List UInt8
deriving DecidableEq

/-- Embeds struct Shader: a shared reference to the context plus the Handle.
The Arc<DisplayImpl> reference is modelled by the context value itself. -/
structure Shader where
  display : CommandContext
  id : Handle
deriving DecidableEq

/-- Embeds the GlObject impl: get_id returns the stored Handle. -/
def Shader.get_id (s : Shader) : Handle :=
  s.id

/-- Embeds the null-sentinel test at line 67 of shader.rs:
`id == Handle::Id(0) || id == Handle::Handle(0 as gl::types::GLhandleARB)`. -/
def handle_is_null (id : Handle) : Bool :=
  id == Handle.Id 0 || id == Handle.Handle 0

/-- Embeds the repeated `match id { Id => assert + core call, Handle =>
assert + ARB call }` blocks of shader.rs.  For the Id variant the code
asserts `ctxt.version >= &GlVersion(2, 0)`; for the Handle variant it
asserts `ctxt.extensions.gl_arb_shader_objects`.  A failed assert is a
panic, modelled by `none`. -/
def assertingDispatch (ctxt : CommandContext) (id : Handle)
    (core : Nat → Event) (legacy : Nat → Event) : Option Event :=
  match id with
  | Handle.Id n =>
    if GlVersion.ge ctxt.version (GlVersion.mk 2 0) then some (core n) else none
  | Handle.Handle n =>
    if ctxt.extensions.gl_arb_shader_objects then some (legacy n) else none

/-- Embeds the capability selection at lines 59-65 of shader.rs: core
CreateShader when version >= 2.0, CreateShaderObjectARB when the
gl_arb_shader_objects extension is present, otherwise `unreachable!()`
(modelled by `none`).  Returns the produced Handle plus the creation call
event. -/
def selectCapability (ctxt : CommandContext) (shader_type : Nat) :
    Option (Handle × Event) :=
  if GlVersion.ge ctxt.version (GlVersion.mk 2 0) then
    some (Handle.Id ctxt.CreateShader_ret, Event.CreateShader shader_type)
  else if ctxt.extensions.gl_arb_shader_objects then
    some (Handle.Handle ctxt.CreateShaderObjectARB_ret,
          Event.CreateShaderObjectARB shader_type)
  else
    none

/-- Fuel-indexed UTF-8 decoding loop over the standard per-character decoder;
fuel bounds the number of decoded characters (each consumes at least one
byte, so `a.size` fuel always suffices). -/
def from_utf8_loop : Nat → ByteArray → Nat → String → Option String
  | 0, a, i, acc => if i < a.size then none else some acc
  | fuel + 1, a, i, acc =>
    if i < a.size then
      match String.utf8DecodeChar? a i with
      | none => none
      | some c => from_utf8_loop fuel a (i + c.utf8Size) (acc.push c)
    else some acc

/-- Embeds Rust's String::from_utf8: the decoded string when the bytes are
valid UTF-8, `none` otherwise (the code calls .unwrap() on this, so `none`
is a panic). -/
def from_utf8 (bytes : List UInt8) : Option String :=
  from_utf8_loop bytes.length (ByteArray.mk bytes.toArray) 0 ""

/-- Embeds the unit of work submitted by build_shader (lines 52-158 of
shader.rs), run against a given context/driver oracle.  Produces the trace
of native calls, lock events and channel sends, and whether the closure
finished or panicked. -/
def build_shader_work (ctxt : CommandContext) (shader_type : Nat) : WorkResult :=
  if shader_type == GEOMETRY_SHADER && ctxt.opengl_es then
    WorkResult.finished
      [Event.Send (RustResult.Err ProgramCreationError.ShaderTypeNotSupported)]
  else
    match selectCapability ctxt shader_type with
    | none => WorkResult.panicked []
    | some (id, create_event) =>
      if handle_is_null id then
        WorkResult.finished [create_event,
          Event.Send (RustResult.Err ProgramCreationError.ShaderTypeNotSupported)]
      else
        match assertingDispatch ctxt id Event.ShaderSource Event.ShaderSourceARB with
        | none => WorkResult.panicked [create_event]
        | some source_event =>
          match assertingDispatch ctxt id Event.CompileShader Event.CompileShaderARB with
          | none => WorkResult.panicked [create_event, source_event, Event.LockAcquire]
          | some compile_event =>
            match assertingDispatch ctxt id
                (fun n => Event.GetShaderiv n COMPILE_STATUS)
                (fun n => Event.GetObjectParameterivARB n OBJECT_COMPILE_STATUS_ARB) with
            | none => WorkResult.panicked
                [create_event, source_event, Event.LockAcquire, compile_event,
                 Event.LockRelease]
            | some status_event =>
              let evs := [create_event, source_event, Event.LockAcquire,
                          compile_event, Event.LockRelease, status_event]
              if ctxt.compile_status == 0 then
                match assertingDispatch ctxt id
                    (fun n => Event.GetShaderiv n INFO_LOG_LENGTH)
                    (fun n => Event.GetObjectParameterivARB n OBJECT_INFO_LOG_LENGTH_ARB) with
                | none => WorkResult.panicked evs
                | some log_len_event =>
                  match assertingDispatch ctxt id
                      Event.GetShaderInfoLog Event.GetInfoLogARB with
                  | none => WorkResult.panicked (evs ++ [log_len_event])
                  | some log_event =>
                    match from_utf8 ctxt.info_log_bytes with
                    | none => WorkResult.panicked (evs ++ [log_len_event, log_event])
                    | some msg =>
                      WorkResult.finished (evs ++ [log_len_event, log_event,
                        Event.Send (RustResult.Err
                          (ProgramCreationError.CompilationError msg))])
              else
                WorkResult.finished (evs ++ [Event.Send (RustResult.Ok id)])

/-- Payload of the first Send event of a trace: what rx.recv() observes.
`none` means the sender was dropped without sending, so the caller's
`.unwrap()` panics. -/
def sent_value (w : WorkResult) : Option (RustResult Handle ProgramCreationError) :=
  w.events.findSome? (fun e =>
    match e with
    | Event.Send r => some r
    | _ => none)

/-- Embeds build_shader as seen by the caller: submit the unit of work,
block on the channel, unwrap (caller panic, `none`, when nothing was sent),
and wrap a successful Handle with the context reference into a Shader. -/
def build_shader (ctxt : CommandContext) (shader_type : Nat) :
    Option (RustResult Shader ProgramCreationError) :=
  match sent_value (build_shader_work ctxt shader_type) with
  | none => none
  | some (RustResult.Err e) => some (RustResult.Err e)
  | some (RustResult.Ok id) => some (RustResult.Ok (Shader.mk ctxt id))

/-- Embeds the deletion unit of work submitted by Drop for Shader (lines
28-41): dispatch on the captured Handle, asserting the matching capability,
and issue DeleteShader / DeleteObjectARB. -/
def drop_work (ctxt : CommandContext) (id : Handle) : WorkResult :=
  match assertingDispatch ctxt id Event.DeleteShader Event.DeleteObjectARB with
  | none => WorkResult.panicked []
  | some ev => WorkResult.finished [ev]

/-- Embeds the submission side of Drop for Shader: the Handle is cloned and
exactly one fire-and-forget unit of work is handed to the context proxy;
the list is the sequence of submissions, each recorded by its captured
Handle (its behaviour is drop_work on that Handle). -/
def Shader.drop_submissions (s : Shader) : List Handle :=
  [s.id]

/-- Event classifier: native object-creation calls. -/
def Event.is_create : Event → Bool
  | Event.CreateShader _ => true
  | Event.CreateShaderObjectARB _ => true
  | _ => false

/-- Event classifier: compile calls. -/
def Event.is_compile : Event → Bool
  | Event.CompileShader _ => true
  | Event.CompileShaderARB _ => true
  | _ => false

/-- Event classifier: lock acquire/release events. -/
def Event.is_lock : Event → Bool
  | Event.LockAcquire => true
  | Event.LockRelease => true
  | _ => false

/-- Event classifier: channel sends. -/
def Event.is_send : Event → Bool
  | Event.Send _ => true
  | _ => false

/-- Event classifier: lock acquisitions. -/
def Event.is_lock_acquire : Event → Bool
  | Event.LockAcquire => true
  | _ => false

/-- Handle classifier: true on the core Id variant. -/
def variant_is_core : Handle → Bool
  | Handle.Id _ => true
  | Handle.Handle _ => false

/-- Lock discipline of a trace: every LockAcquire is immediately followed by
one compile call and then LockRelease, lock events occur nowhere else, and
compile calls occur only inside such a span. -/
def lock_scoped : List Event → Bool
  | [] => true
  | Event.LockAcquire :: e :: Event.LockRelease :: rest =>
    e.is_compile && lock_scoped rest
  | e :: rest => !e.is_lock && !e.is_compile && lock_scoped rest

/-- Channel discipline of a work outcome: a finished run performed exactly
one send and it was its last action; a panicked run sent nothing. -/
def sends_exactly_once : WorkResult → Bool
  | WorkResult.finished evs =>
    evs.countP Event.is_send == 1 &&
      (match evs.getLast? with
       | some e => e.is_send
       | none => false)
  | WorkResult.panicked evs => evs.countP Event.is_send == 0

/-- Sample shader stage: gl::VERTEX_SHADER. -/
def VERTEX_SHADER : Nat := 0x8B31

/-- Sample context: OpenGL ES profile (geometry shaders unsupported). -/
def esCtxt : CommandContext :=
  CommandContext.mk (GlVersion.mk 2 0) (ExtensionsList.mk false) true 7 0 1 []

/-- Sample context: core path at version (3,3), successful compilation. -/
def coreCtxt : CommandContext :=
  CommandContext.mk (GlVersion.mk 3 3) (ExtensionsList.mk false) false 42 0 1 []

/-- Sample context: core path whose CreateShader call returns 0. -/
def coreNullCtxt : CommandContext :=
  CommandContext.mk (GlVersion.mk 3 3) (ExtensionsList.mk false) false 0 0 1 []

/-- Sample context: core path, compilation fails with log "hi". -/
def coreFailCtxt : CommandContext :=
  CommandContext.mk (GlVersion.mk 3 3) (ExtensionsList.mk false) false 42 0 0
    [104, 105]

/-- Sample context: core path, compilation fails, log bytes invalid UTF-8. -/
def coreBadLogCtxt : CommandContext :=
  CommandContext.mk (GlVersion.mk 3 3) (ExtensionsList.mk false) false 42 0 0
    [255]

/-- Sample context: legacy extension path (version below 2.0). -/
def legacyCtxt : CommandContext :=
  CommandContext.mk (GlVersion.mk 1 5) (ExtensionsList.mk true) false 0 9 1 []

/-- C1: when the requested stage is geometry and the context's OpenGL ES flag
is set, the unit of work sends only Err(ShaderTypeNotSupported) — its trace
contains no object-creation or compile call — and build_shader returns that
error. -/
theorem geometry_stage_rejected (ctxt : CommandContext)
    (hes : ctxt.opengl_es = true) :
    build_shader_work ctxt GEOMETRY_SHADER =
      WorkResult.finished
        [Event.Send (RustResult.Err ProgramCreationError.ShaderTypeNotSupported)] ∧
    (build_shader_work ctxt GEOMETRY_SHADER).events.countP
        (fun e => e.is_create || e.is_compile) = 0 ∧
    build_shader ctxt GEOMETRY_SHADER =
      some (RustResult.Err ProgramCreationError.ShaderTypeNotSupported) := by
  have hw : build_shader_work ctxt GEOMETRY_SHADER =
      WorkResult.finished
        [Event.Send (RustResult.Err ProgramCreationError.ShaderTypeNotSupported)] := by
    simp [build_shader_work, hes]
  refine ⟨hw, ?_, ?_⟩
  · simp [hw, WorkResult.events, Event.is_create, Event.is_compile]
  · simp [build_shader, sent_value, hw, WorkResult.events]

/-- C1 witness: concrete OpenGL ES context. -/
theorem geometry_stage_rejected_witness :
    build_shader esCtxt GEOMETRY_SHADER =
      some (RustResult.Err ProgramCreationError.ShaderTypeNotSupported) :=
  (geometry_stage_rejected esCtxt rfl).2.2

/-- C2: capability selection takes the Core path (a Handle.Id carrying the
CreateShader result) exactly when the version is at least (2,0), else the
LegacyExtension path (a Handle.Handle carrying the CreateShaderObjectARB
result) when gl_arb_shader_objects is set, else it is the fatal
unreachable case; whenever at least one capability holds, a handle is
produced and its variant matches the selected path (core variant if and
only if the version test passed). -/
theorem capability_selection (ctxt : CommandContext) (shader_type : Nat) :
    (GlVersion.ge ctxt.version (GlVersion.mk 2 0) = true →
      selectCapability ctxt shader_type =
        some (Handle.Id ctxt.CreateShader_ret, Event.CreateShader shader_type)) ∧
    (GlVersion.ge ctxt.version (GlVersion.mk 2 0) = false →
      ctxt.extensions.gl_arb_shader_objects = true →
      selectCapability ctxt shader_type =
        some (Handle.Handle ctxt.CreateShaderObjectARB_ret,
              Event.CreateShaderObjectARB shader_type)) ∧
    (GlVersion.ge ctxt.version (GlVersion.mk 2 0) = false →
      ctxt.extensions.gl_arb_shader_objects = false →
      selectCapability ctxt shader_type = none) ∧
    ((GlVersion.ge ctxt.version (GlVersion.mk 2 0) = true ∨
      ctxt.extensions.gl_arb_shader_objects = true) →
      ∃ id ev, selectCapability ctxt shader_type = some (id, ev) ∧
        variant_is_core id = GlVersion.ge ctxt.version (GlVersion.mk 2 0)) := by
  cases hge : GlVersion.ge ctxt.version (GlVersion.mk 2 0) <;>
    cases hext : ctxt.extensions.gl_arb_shader_objects <;>
    simp [selectCapability, hge, hext, variant_is_core]

/-- C2 witness: concrete core-capable context selects the core path. -/
theorem capability_selection_witness :
    selectCapability coreCtxt VERTEX_SHADER =
      some (Handle.Id 42, Event.CreateShader VERTEX_SHADER) :=
  (capability_selection coreCtxt VERTEX_SHADER).1 (by decide)

/-- C3: a core Handle with id 0 and a legacy Handle with the ARB null
sentinel both test null, and any creation attempt whose selected path
returns its null sentinel makes the unit of work send
Err(ShaderTypeNotSupported) right after the creation call, which
build_shader surfaces as that same error. -/
theorem null_sentinel_rejected (ctxt : CommandContext) (shader_type : Nat) :
    handle_is_null (Handle.Id 0) = true ∧
    handle_is_null (Handle.Handle 0) = true ∧
    ((shader_type == GEOMETRY_SHADER && ctxt.opengl_es) = false →
      ∀ id ev, selectCapability ctxt shader_type = some (id, ev) →
        handle_is_null id = true →
        build_shader_work ctxt shader_type = WorkResult.finished [ev,
          Event.Send (RustResult.Err ProgramCreationError.ShaderTypeNotSupported)] ∧
        build_shader ctxt shader_type =
          some (RustResult.Err ProgramCreationError.ShaderTypeNotSupported)) := by
  refine ⟨by decide, by decide, ?_⟩
  intro hng id ev hsel hnull
  have hw : build_shader_work ctxt shader_type = WorkResult.finished [ev,
      Event.Send (RustResult.Err ProgramCreationError.ShaderTypeNotSupported)] := by
    simp [build_shader_work, hng, hsel, hnull]
  refine ⟨hw, ?_⟩
  have : ¬ ev.is_send = true := by
    rcases hge : GlVersion.ge ctxt.version (GlVersion.mk 2 0) <;>
      rcases hext : ctxt.extensions.gl_arb_shader_objects <;>
      simp [selectCapability, hge, hext] at hsel <;>
      simp [← hsel.2, Event.is_send]
  cases hevsend : ev.is_send
  · simp [build_shader, sent_value, hw, WorkResult.events, List.findSome?]
    cases ev <;> simp_all [Event.is_send]
  · exact absurd hevsend this

/-- C3 witness: concrete core context whose CreateShader call returns 0. -/
theorem null_sentinel_rejected_witness :
    build_shader coreNullCtxt VERTEX_SHADER =
      some (RustResult.Err ProgramCreationError.ShaderTypeNotSupported) :=
  ((null_sentinel_rejected coreNullCtxt VERTEX_SHADER).2.2 (by decide)
    (Handle.Id 0) (Event.CreateShader VERTEX_SHADER) (by decide) (by decide)).2

/-- C4: whenever the compile-status query reads 0, the unit of work queries
the log length, retrieves the log via the selected path's call, decodes it
as UTF-8 and sends Err(CompilationError(msg)) with exactly the decoded
driver log, which build_shader returns; no Ok value is produced.  Stated
for both the core path and the legacy extension path. -/
theorem compilation_error_surfaced (ctxt : CommandContext) (shader_type : Nat)
    (msg : String) :
    ((shader_type == GEOMETRY_SHADER && ctxt.opengl_es) = false →
      GlVersion.ge ctxt.version (GlVersion.mk 2 0) = true →
      ctxt.CreateShader_ret ≠ 0 →
      ctxt.compile_status = 0 →
      from_utf8 ctxt.info_log_bytes = some msg →
      build_shader_work ctxt shader_type = WorkResult.finished
        [Event.CreateShader shader_type,
         Event.ShaderSource ctxt.CreateShader_ret,
         Event.LockAcquire, Event.CompileShader ctxt.CreateShader_ret,
         Event.LockRelease,
         Event.GetShaderiv ctxt.CreateShader_ret COMPILE_STATUS,
         Event.GetShaderiv ctxt.CreateShader_ret INFO_LOG_LENGTH,
         Event.GetShaderInfoLog ctxt.CreateShader_ret,
         Event.Send (RustResult.Err (ProgramCreationError.CompilationError msg))] ∧
      build_shader ctxt shader_type =
        some (RustResult.Err (ProgramCreationError.CompilationError msg))) ∧
    ((shader_type == GEOMETRY_SHADER && ctxt.opengl_es) = false →
      GlVersion.ge ctxt.version (GlVersion.mk 2 0) = false →
      ctxt.extensions.gl_arb_shader_objects = true →
      ctxt.CreateShaderObjectARB_ret ≠ 0 →
      ctxt.compile_status = 0 →
      from_utf8 ctxt.info_log_bytes = some msg →
      build_shader_work ctxt shader_type = WorkResult.finished
        [Event.CreateShaderObjectARB shader_type,
         Event.ShaderSourceARB ctxt.CreateShaderObjectARB_ret,
         Event.LockAcquire, Event.CompileShaderARB ctxt.CreateShaderObjectARB_ret,
         Event.LockRelease,
         Event.GetObjectParameterivARB ctxt.CreateShaderObjectARB_ret
           OBJECT_COMPILE_STATUS_ARB,
         Event.GetObjectParameterivARB ctxt.CreateShaderObjectARB_ret
           OBJECT_INFO_LOG_LENGTH_ARB,
         Event.GetInfoLogARB ctxt.CreateShaderObjectARB_ret,
         Event.Send (RustResult.Err (ProgramCreationError.CompilationError msg))] ∧
      build_shader ctxt shader_type =
        some (RustResult.Err (ProgramCreationError.CompilationError msg))) := by
  constructor
  · intro hng hge hnz hcs hlog
    have hw : build_shader_work ctxt shader_type = WorkResult.finished
        [Event.CreateShader shader_type,
         Event.ShaderSource ctxt.CreateShader_ret,
         Event.LockAcquire, Event.CompileShader ctxt.CreateShader_ret,
         Event.LockRelease,
         Event.GetShaderiv ctxt.CreateShader_ret COMPILE_STATUS,
         Event.GetShaderiv ctxt.CreateShader_ret INFO_LOG_LENGTH,
         Event.GetShaderInfoLog ctxt.CreateShader_ret,
         Event.Send (RustResult.Err (ProgramCreationError.CompilationError msg))] := by
      simp [build_shader_work, selectCapability, assertingDispatch,
        handle_is_null, hng, hge, hnz, hcs, hlog]
    exact ⟨hw, by simp [build_shader, sent_value, hw, WorkResult.events]⟩
  · intro hng hge hext hnz hcs hlog
    have hw : build_shader_work ctxt shader_type = WorkResult.finished
        [Event.CreateShaderObjectARB shader_type,
         Event.ShaderSourceARB ctxt.CreateShaderObjectARB_ret,
         Event.LockAcquire, Event.CompileShaderARB ctxt.CreateShaderObjectARB_ret,
         Event.LockRelease,
         Event.GetObjectParameterivARB ctxt.CreateShaderObjectARB_ret
           OBJECT_COMPILE_STATUS_ARB,
         Event.GetObjectParameterivARB ctxt.CreateShaderObjectARB_ret
           OBJECT_INFO_LOG_LENGTH_ARB,
         Event.GetInfoLogARB ctxt.CreateShaderObjectARB_ret,
         Event.Send (RustResult.Err (ProgramCreationError.CompilationError msg))] := by
      simp [build_shader_work, selectCapability, assertingDispatch,
        handle_is_null, hng, hge, hext, hnz, hcs, hlog]
    exact ⟨hw, by simp [build_shader, sent_value, hw, WorkResult.events]⟩

/-- C4 witness: concrete core context whose driver reports compile failure
with log bytes "hi". -/
theorem compilation_error_surfaced_witness :
    build_shader coreFailCtxt VERTEX_SHADER =
      some (RustResult.Err (ProgramCreationError.CompilationError "hi")) :=
  ((compilation_error_surfaced coreFailCtxt VERTEX_SHADER "hi").1
    (by decide) (by decide) (by decide) (by decide) (by decide)).2

/-- C5: on a core-capable context whose driver returns a non-zero identifier
and a non-zero compile status, build_shader returns Ok with a Shader holding
the core Handle with that identifier and the caller's context; and whenever
the unit of work sends an Err, build_shader returns exactly that Err (no
Shader is constructed). -/
theorem successful_round_trip (ctxt : CommandContext) (shader_type : Nat) :
    ((shader_type == GEOMETRY_SHADER && ctxt.opengl_es) = false →
      GlVersion.ge ctxt.version (GlVersion.mk 2 0) = true →
      ctxt.CreateShader_ret ≠ 0 →
      ctxt.compile_status ≠ 0 →
      build_shader ctxt shader_type =
        some (RustResult.Ok
          (Shader.mk ctxt (Handle.Id ctxt.CreateShader_ret)))) ∧
    (∀ e, sent_value (build_shader_work ctxt shader_type) =
        some (RustResult.Err e) →
      build_shader ctxt shader_type = some (RustResult.Err e)) := by
  constructor
  · intro hng hge hnz hcs
    have hw : build_shader_work ctxt shader_type = WorkResult.finished
        [Event.CreateShader shader_type,
         Event.ShaderSource ctxt.CreateShader_ret,
         Event.LockAcquire, Event.CompileShader ctxt.CreateShader_ret,
         Event.LockRelease,
         Event.GetShaderiv ctxt.CreateShader_ret COMPILE_STATUS,
         Event.Send (RustResult.Ok (Handle.Id ctxt.CreateShader_ret))] := by
      simp [build_shader_work, selectCapability, assertingDispatch,
        handle_is_null, hng, hge, hnz, hcs]
    simp [build_shader, sent_value, hw, WorkResult.events]
  · intro e hsent
    simp [build_shader, hsent]

/-- C5 witness: concrete core context at version (3,3) with identifier 42. -/
theorem successful_round_trip_witness :
    build_shader coreCtxt VERTEX_SHADER =
      some (RustResult.Ok (Shader.mk coreCtxt (Handle.Id 42))) :=
  (successful_round_trip coreCtxt VERTEX_SHADER).1
    (by decide) (by decide) (by decide) (by decide)

/-- C6: in every execution of the creation unit of work the compilation lock
is held exactly for the span of the single compile call — each LockAcquire
in the trace is immediately followed by one compile call and then
LockRelease, no other call happens while the lock is held, compile calls
happen only under the lock, and the lock is taken at most once. -/
theorem compile_lock_minimal_span (ctxt : CommandContext) (shader_type : Nat) :
    lock_scoped (build_shader_work ctxt shader_type).events = true ∧
    (build_shader_work ctxt shader_type).events.countP
      Event.is_lock_acquire ≤ 1 := by
  cases hes : (shader_type == GEOMETRY_SHADER && ctxt.opengl_es) <;>
    cases hge : GlVersion.ge ctxt.version (GlVersion.mk 2 0) <;>
    cases hext : ctxt.extensions.gl_arb_shader_objects <;>
    rcases hnzc : ctxt.CreateShader_ret with _ | n1 <;>
    rcases hnza : ctxt.CreateShaderObjectARB_ret with _ | n2 <;>
    cases hcs : (ctxt.compile_status == 0) <;>
    rcases hlog : from_utf8 ctxt.info_log_bytes with _ | msg <;>
    simp [build_shader_work, selectCapability, assertingDispatch,
      handle_is_null, hes, hge, hext, hnzc, hnza, hcs, hlog, lock_scoped,
      Event.is_compile, Event.is_lock, Event.is_lock_acquire,
      WorkResult.events, List.countP, List.countP.go]

/-- C7: every execution of the creation unit of work that finishes performs
exactly one channel send, as its last action; an execution that panics
performs no send at all. -/
theorem outcome_sent_exactly_once (ctxt : CommandContext) (shader_type : Nat) :
    sends_exactly_once (build_shader_work ctxt shader_type) = true := by
  cases hes : (shader_type == GEOMETRY_SHADER && ctxt.opengl_es) <;>
    cases hge : GlVersion.ge ctxt.version (GlVersion.mk 2 0) <;>
    cases hext : ctxt.extensions.gl_arb_shader_objects <;>
    rcases hnzc : ctxt.CreateShader_ret with _ | n1 <;>
    rcases hnza : ctxt.CreateShaderObjectARB_ret with _ | n2 <;>
    cases hcs : (ctxt.compile_status == 0) <;>
    rcases hlog : from_utf8 ctxt.info_log_bytes with _ | msg <;>
    simp [build_shader_work, selectCapability, assertingDispatch,
      handle_is_null, hes, hge, hext, hnzc, hnza, hcs, hlog,
      sends_exactly_once, Event.is_send, List.countP, List.countP.go]

/-- C8: dropping a Shader submits exactly one deletion unit of work, whose
captured Handle equals the Handle the resource held, and that work deletes
via the path matching the variant: DeleteShader after the version >= (2,0)
assert for the core variant, DeleteObjectARB after the extension assert for
the legacy variant. -/
theorem deferred_deletion (s : Shader) (ctxt : CommandContext) (n : Nat) :
    s.drop_submissions.length = 1 ∧
    (∀ h ∈ s.drop_submissions, h = s.get_id) ∧
    (GlVersion.ge ctxt.version (GlVersion.mk 2 0) = true →
      drop_work ctxt (Handle.Id n) =
        WorkResult.finished [Event.DeleteShader n]) ∧
    (ctxt.extensions.gl_arb_shader_objects = true →
      drop_work ctxt (Handle.Handle n) =
        WorkResult.finished [Event.DeleteObjectARB n]) := by
  refine ⟨rfl, ?_, ?_, ?_⟩
  · intro h hmem
    simpa [Shader.drop_submissions, Shader.get_id] using hmem
  · intro hge
    simp [drop_work, assertingDispatch, hge]
  · intro hext
    simp [drop_work, assertingDispatch, hext]

/-- C8 witness: concrete Shader over the core context. -/
theorem deferred_deletion_witness :
    (Shader.mk coreCtxt (Handle.Id 42)).drop_submissions.length = 1 ∧
    drop_work coreCtxt (Handle.Id 42) =
      WorkResult.finished [Event.DeleteShader 42] :=
  And.intro
    (deferred_deletion (Shader.mk coreCtxt (Handle.Id 42)) coreCtxt 42).1
    ((deferred_deletion (Shader.mk coreCtxt (Handle.Id 42)) coreCtxt 42).2.2.1
      (by decide))

/-- C9: when the retrieved diagnostic log bytes are not valid UTF-8, the unit
of work panics after the log retrieval call instead of sending anything —
its trace contains no send — and the caller's unwrap of the dead channel
panics as well (no error kind is ever produced from invalid UTF-8).  Stated
for both the core path and the legacy extension path. -/
theorem invalid_utf8_log_panics (ctxt : CommandContext) (shader_type : Nat) :
    ((shader_type == GEOMETRY_SHADER && ctxt.opengl_es) = false →
      GlVersion.ge ctxt.version (GlVersion.mk 2 0) = true →
      ctxt.CreateShader_ret ≠ 0 →
      ctxt.compile_status = 0 →
      from_utf8 ctxt.info_log_bytes = none →
      build_shader_work ctxt shader_type = WorkResult.panicked
        [Event.CreateShader shader_type,
         Event.ShaderSource ctxt.CreateShader_ret,
         Event.LockAcquire, Event.CompileShader ctxt.CreateShader_ret,
         Event.LockRelease,
         Event.GetShaderiv ctxt.CreateShader_ret COMPILE_STATUS,
         Event.GetShaderiv ctxt.CreateShader_ret INFO_LOG_LENGTH,
         Event.GetShaderInfoLog ctxt.CreateShader_ret] ∧
      (build_shader_work ctxt shader_type).events.countP Event.is_send = 0 ∧
      build_shader ctxt shader_type = none) ∧
    ((shader_type == GEOMETRY_SHADER && ctxt.opengl_es) = false →
      GlVersion.ge ctxt.version (GlVersion.mk 2 0) = false →
      ctxt.extensions.gl_arb_shader_objects = true →
      ctxt.CreateShaderObjectARB_ret ≠ 0 →
      ctxt.compile_status = 0 →
      from_utf8 ctxt.info_log_bytes = none →
      build_shader_work ctxt shader_type = WorkResult.panicked
        [Event.CreateShaderObjectARB shader_type,
         Event.ShaderSourceARB ctxt.CreateShaderObjectARB_ret,
         Event.LockAcquire, Event.CompileShaderARB ctxt.CreateShaderObjectARB_ret,
         Event.LockRelease,
         Event.GetObjectParameterivARB ctxt.CreateShaderObjectARB_ret
           OBJECT_COMPILE_STATUS_ARB,
         Event.GetObjectParameterivARB ctxt.CreateShaderObjectARB_ret
           OBJECT_INFO_LOG_LENGTH_ARB,
         Event.GetInfoLogARB ctxt.CreateShaderObjectARB_ret] ∧
      (build_shader_work ctxt shader_type).events.countP Event.is_send = 0 ∧
      build_shader ctxt shader_type = none) := by
  constructor
  · intro hng hge hnz hcs hlog
    have hw : build_shader_work ctxt shader_type = WorkResult.panicked
        [Event.CreateShader shader_type,
         Event.ShaderSource ctxt.CreateShader_ret,
         Event.LockAcquire, Event.CompileShader ctxt.CreateShader_ret,
         Event.LockRelease,
         Event.GetShaderiv ctxt.CreateShader_ret COMPILE_STATUS,
         Event.GetShaderiv ctxt.CreateShader_ret INFO_LOG_LENGTH,
         Event.GetShaderInfoLog ctxt.CreateShader_ret] := by
      simp [build_shader_work, selectCapability, assertingDispatch,
        handle_is_null, hng, hge, hnz, hcs, hlog]
    refine ⟨hw, ?_, ?_⟩
    · simp [hw, WorkResult.events, Event.is_send]
    · simp [build_shader, sent_value, hw, WorkResult.events]
  · intro hng hge hext hnz hcs hlog
    have hw : build_shader_work ctxt shader_type = WorkResult.panicked
        [Event.CreateShaderObjectARB shader_type,
         Event.ShaderSourceARB ctxt.CreateShaderObjectARB_ret,
         Event.LockAcquire, Event.CompileShaderARB ctxt.CreateShaderObjectARB_ret,
         Event.LockRelease,
         Event.GetObjectParameterivARB ctxt.CreateShaderObjectARB_ret
           OBJECT_COMPILE_STATUS_ARB,
         Event.GetObjectParameterivARB ctxt.CreateShaderObjectARB_ret
           OBJECT_INFO_LOG_LENGTH_ARB,
         Event.GetInfoLogARB ctxt.CreateShaderObjectARB_ret] := by
      simp [build_shader_work, selectCapability, assertingDispatch,
        handle_is_null, hng, hge, hext, hnz, hcs, hlog]
    refine ⟨hw, ?_, ?_⟩
    · simp [hw, WorkResult.events, Event.is_send]
    · simp [build_shader, sent_value, hw, WorkResult.events]

/-- C9 witness: concrete core context whose driver log is the invalid UTF-8
byte 0xFF. -/
theorem invalid_utf8_log_panics_witness :
    build_shader coreBadLogCtxt VERTEX_SHADER = none :=
  ((invalid_utf8_log_panics coreBadLogCtxt VERTEX_SHADER).1
    (by decide) (by decide) (by decide) (by decide) (by decide)).2.2

/-- C10: every Handle produced by capability selection satisfies the
capability assertion of its variant — the core Id variant implies version
>= (2,0) and the legacy Handle variant implies gl_arb_shader_objects — so
every assert-guarded dispatch on it (source upload, compile, status query,
log queries and retrieval) succeeds, and the deletion work in Drop finishes
without a capability abort. -/
theorem capability_asserts_hold (ctxt : CommandContext) (shader_type : Nat)
    (id : Handle) (ev : Event)
    (hsel : selectCapability ctxt shader_type = some (id, ev)) :
    (∀ n, id = Handle.Id n →
      GlVersion.ge ctxt.version (GlVersion.mk 2 0) = true) ∧
    (∀ n, id = Handle.Handle n →
      ctxt.extensions.gl_arb_shader_objects = true) ∧
    (∀ core legacy, (assertingDispatch ctxt id core legacy).isSome = true) ∧
    (∃ evd, drop_work ctxt id = WorkResult.finished [evd]) := by
  cases hge : GlVersion.ge ctxt.version (GlVersion.mk 2 0) <;>
    cases hext : ctxt.extensions.gl_arb_shader_objects <;>
    simp [selectCapability, hge, hext] at hsel <;>
    rcases hsel with ⟨hid, hev⟩ <;>
    subst hid <;>
    simp [assertingDispatch, drop_work, hge, hext]

/-- C10 witness: concrete core-capable context; the dispatch guarding the
deletion call on the selected handle succeeds. -/
theorem capability_asserts_hold_witness :
    (assertingDispatch coreCtxt (Handle.Id 42)
      Event.DeleteShader Event.DeleteObjectARB).isSome = true :=
  (capability_asserts_hold coreCtxt VERTEX_SHADER (Handle.Id 42)
    (Event.CreateShader VERTEX_SHADER) (by decide)).2.2.1
    Event.DeleteShader Event.DeleteObjectARB
